import Mathlib

set_option maxHeartbeats 1000000
set_option maxRecDepth 8192

/-
Shallow embedding of src/bm.go (opera-bookmarks): a converter from the JSON
bookmark store of the Opera browser to an HTML document.

Modelling conventions:
* A decoded Go JSON value (interface holding map[string]interface, slices,
  strings, float64 numbers, bools, nil) is the inductive JValue below.  A
  string-keyed map is modelled as an association list; the Go JSON decoder
  produces maps with unique keys, so first-match lookup agrees with map
  lookup, and iteration order of a Go map (unspecified in Go) is modelled
  as the list order.  JSON numbers are carried as Int, which is enough here
  because the program never reads a numeric field: numbers only ever matter
  as a value that is not a string and not an object.
* Go functions returning (value, error) pairs are modelled with Except.
* time.Time is modelled as an Int counting nanoseconds since the Go zero
  time (January 1 of year 1, UTC); the zero value of time.Time is 0.
  time.Duration is a 64-bit signed count of nanoseconds, so converting an
  integer to a Duration wraps modulo 2 to the 64; wrap64 models that.
-/

inductive JValue where
  | str (s : String)
  | num (x : Int)
  | bool (b : Bool)
  | null
  | arr (items : List JValue)
  | obj (fields : List (String × JValue))

/-- Lookup of a key in the association-list model of map[string]interface. -/
def jlookup (key : String) : List (String × JValue) → Option JValue
  | [] => none
  | (k, v) :: rest => if k = key then some v else jlookup key rest

theorem jlookup_mem (key : String) (fields : List (String × JValue)) (v : JValue)
    (h : jlookup key fields = some v) : (key, v) ∈ fields := by
  induction fields with
  | nil => simp [jlookup] at h
  | cons kv rest ih =>
    obtain ⟨k, w⟩ := kv
    by_cases hk : k = key
    · subst hk
      simp [jlookup] at h
      subst h
      exact List.mem_cons_self _ _
    · simp [jlookup, hk] at h
      exact List.mem_cons_of_mem _ (ih h)

theorem jlookup_sizeOf (key : String) (fields : List (String × JValue)) (v : JValue)
    (h : jlookup key fields = some v) : sizeOf v < sizeOf fields := by
  have hm := jlookup_mem key fields v h
  have h1 : sizeOf (key, v) < sizeOf fields := List.sizeOf_lt_of_mem hm
  have h2 : sizeOf v < sizeOf (key, v) := by
    simp only [Prod.mk.sizeOf_spec]
    omega
  omega

/-
Errors of bm.go.  Two named error types exist in the source (KeyNotFoundError
and ParserError); the remaining errors are created by fmt.Errorf and
errors.New and are only ever observed through their message, so each kind is
a constructor here and BMError.message renders the Go message text
(Go %q is modelled as plain double quoting, exact for the strings involved).
-/
inductive BMError where
  | keyNotFound (key : String)
  | notAString (key : String)
  | notAnInteger (key : String) (value : String)
  | parser (path : String) (msg : String)
  | invalidRoot
deriving DecidableEq

def BMError.message : BMError → String
  | .keyNotFound key => "Tag \x22" ++ key ++ "\x22 is not found"
  | .notAString key => "Tag \x22" ++ key ++ "\x22 is not a string"
  | .notAnInteger key value =>
      "Value for tag \x22" ++ key ++ "\x22 is not an integer: \x22" ++ value ++ "\x22"
  | .parser path msg => "Node " ++ path ++ ": " ++ msg
  | .invalidRoot => "Invalid root item type"

/-- mapError of bm.go: qualify an error with the key of the current node. -/
def mapError (key : String) (e : BMError) : BMError :=
  match e with
  | .parser path msg =>
      if path.length > 0 then .parser (key ++ "/" ++ path) msg
      else .parser key msg
  | other => .parser key other.message

/-- readString of bm.go. -/
def readString (key : String) (data : List (String × JValue)) : Except BMError String :=
  match jlookup key data with
  | none => .error (.keyNotFound key)
  | some (JValue.str s) => .ok s
  | some _ => .error (.notAString key)

/-- Decimal digit test used by the model of strconv.ParseInt. -/
def isDigit (c : Char) : Bool := '0' ≤ c && c ≤ '9'

def digitsToNat (cs : List Char) : Nat :=
  cs.foldl (fun a c => a * 10 + (c.toNat - 48)) 0

/-- Model of strconv.ParseInt(s, 10, bitSize) from the Go standard library:
an optional single sign, then at least one decimal digit and nothing else,
with the result required to fit the signed range of the given bit width
(any error, syntax or range, is collapsed to none). -/
def goParseInt (s : String) (bitSize : Nat) : Option Int :=
  match s.data with
  | [] => none
  | c :: cs =>
    let neg := c = '-'
    let ds := if c = '-' || c = '+' then cs else c :: cs
    if ds = [] then none
    else if ds.all isDigit then
      let mag : Int := Int.ofNat (digitsToNat ds)
      let v : Int := if neg then -mag else mag
      if -(2 ^ (bitSize - 1)) ≤ v ∧ v ≤ 2 ^ (bitSize - 1) - 1 then some v else none
    else none

/-- readInt of bm.go. -/
def readInt (key : String) (data : List (String × JValue)) (bitSize : Nat) :
    Except BMError Int :=
  match readString key data with
  | .error e => .error e
  | .ok s =>
    match goParseInt s bitSize with
    | some v => .ok v
    | none => .error (.notAnInteger key s)

/-- The constant twoCenturies of bm.go, in microseconds. -/
def twoCenturies : Int := 200 * 365 * 24 * 60 * 60 * 1000000

/-- Conversion of an unbounded integer to the value of the corresponding
64-bit two-complement signed integer (the effect of converting an int64
product to time.Duration after a possible overflow during multiplication). -/
def wrap64 (x : Int) : Int := (x + 2 ^ 63) % 2 ^ 64 - 2 ^ 63

/-- googleEpoch of bm.go: January 1, 1601, 00:00:00 UTC, as nanoseconds since
the Go zero time (January 1 of year 1, UTC).  There are 584388 days between
the two instants in the proleptic Gregorian calendar used by package time
(1600 years of 365 days plus 388 leap days), and 584388 days are
50491123200 seconds. -/
def googleEpoch : Int := 50491123200 * 1000000000

/-- The accumulation loop of readTimeStamp in bm.go: while at least two
centuries of microseconds remain, add two centuries worth of nanoseconds to
the time.  The Duration conversions go through wrap64 exactly where the Go
source converts an int64 to time.Duration. -/
def tsLoop (val ts : Int) : Int × Int :=
  if h : twoCenturies ≤ val then
    tsLoop (val - twoCenturies) (ts + wrap64 (twoCenturies * 1000))
  else (val, ts)
termination_by val.toNat
decreasing_by
  simp only [twoCenturies] at h ⊢
  omega

/-- The arithmetic core of readTimeStamp of bm.go: decode a microsecond
count into the time googleEpoch + the chunked nanosecond sum. -/
def decodeTimeStamp (val : Int) : Int :=
  (tsLoop val googleEpoch).2 + wrap64 ((tsLoop val googleEpoch).1 * 1000)

/-- readTimeStamp of bm.go. -/
def readTimeStamp (key : String) (data : List (String × JValue)) :
    Except BMError Int :=
  match readInt key data 64 with
  | .error e => .error e
  | .ok val => .ok (decodeTimeStamp val)

/-- Node of bm.go: data common to links and folders. -/
structure Node where
  Name : String
  Key : String
  Added : Int
  Modified : Int
deriving DecidableEq

/-- Node.read of bm.go: the Modified field keeps the time.Time zero value
when date_modified is missing, and a missing date_modified is not an
error. -/
def Node.read (key : String) (data : List (String × JValue)) :
    Except BMError Node :=
  match readString "name" data with
  | .error e => .error e
  | .ok name =>
    match readTimeStamp "date_added" data with
    | .error e => .error e
    | .ok added =>
      match readTimeStamp "date_modified" data with
      | .ok modified => .ok { Name := name, Key := key, Added := added, Modified := modified }
      | .error (.keyNotFound _) => .ok { Name := name, Key := key, Added := added, Modified := 0 }
      | .error e => .error e

/-- Link of bm.go. -/
structure Link where
  node : Node
  URL : String
deriving DecidableEq

/-- makeLink of bm.go. -/
def makeLink (key : String) (data : List (String × JValue)) :
    Except BMError Link :=
  match Node.read key data with
  | .error e => .error (mapError key e)
  | .ok n =>
    match readString "url" data with
    | .error e => .error (mapError key e)
    | .ok url => .ok { node := n, URL := url }

/-- Folder of bm.go: a node plus the ordered list of links it owns and the
ordered list of folders it owns. -/
inductive Folder where
  | mk (node : Node) (Links : List Link) (Folders : List Folder)

def Folder.node : Folder → Node
  | .mk n _ _ => n

def Folder.Links : Folder → List Link
  | .mk _ ls _ => ls

def Folder.Folders : Folder → List Folder
  | .mk _ _ fs => fs

/-- Folder.addFolder of bm.go: append the child when there is no error. -/
def Folder.addFolder : Folder → Except BMError Folder → Except BMError Folder
  | .mk n ls fs, .ok child => .ok (.mk n ls (fs ++ [child]))
  | _, .error e => .error e

/-- Folder.addLink of bm.go: append the child when there is no error. -/
def Folder.addLink : Folder → Except BMError Link → Except BMError Folder
  | .mk n ls fs, .ok child => .ok (.mk n (ls ++ [child]) fs)
  | _, .error e => .error e

mutual

/-- Folder.add of bm.go: the item dispatcher. -/
def Folder.add (root : Folder) (key : String) (item : JValue) :
    Except BMError Folder :=
  match item with
  | JValue.obj fields =>
    match jlookup "type" fields with
    | some t =>
      match t with
      | JValue.str tt =>
        if tt = "folder" then root.addFolder (makeChildFolder key fields)
        else if tt = "url" then root.addLink (makeLink key fields)
        else .error (.parser key ("Unknown type \x22" ++ tt ++ "\x22"))
      | _ => .error (.parser key "Type tag is not a string")
    | none => root.addFolder (makeRootFolder key fields)
  | _ => .error (.parser key "Unexpected node type")
termination_by 2 * sizeOf item
decreasing_by
  all_goals simp
  all_goals omega

/-- makeChildFolder of bm.go: the Folder constructor for an element of a
children list. -/
def makeChildFolder (key : String) (fields : List (String × JValue)) :
    Except BMError Folder :=
  match Node.read key fields with
  | .error e => .error (mapError key e)
  | .ok n =>
    match h : jlookup "children" fields with
    | none => .ok (Folder.mk n [] [])
    | some (JValue.arr cc) => addChildren key (Folder.mk n [] []) 0 cc
    | some _ => .error (.parser key "Unexpected \x22children\x22 type")
termination_by 2 * sizeOf fields + 1
decreasing_by
  all_goals have := jlookup_sizeOf "children" fields (JValue.arr cc) h
  all_goals simp at this
  all_goals omega

/-- The loop over the children list inside makeChildFolder of bm.go, with
the element index carried for the synthetic key. -/
def addChildren (key : String) (folder : Folder) (i : Nat) (cc : List JValue) :
    Except BMError Folder :=
  match cc with
  | [] => .ok folder
  | v :: rest =>
    match Folder.add folder ("#" ++ toString i) v with
    | .error e => .error (mapError key e)
    | .ok folder2 => addChildren key folder2 (i + 1) rest
termination_by 2 * sizeOf cc
decreasing_by
  all_goals simp
  all_goals omega

/-- makeRootFolder of bm.go: the Folder constructor for an untyped mapping;
the folder carries the key as its name, and every named entry of the mapping
is dispatched as a child node. -/
def makeRootFolder (key : String) (fields : List (String × JValue)) :
    Except BMError Folder :=
  rootLoop key (Folder.mk { Name := key, Key := key, Added := 0, Modified := 0 } [] []) fields
termination_by 2 * sizeOf fields + 1
decreasing_by
  all_goals omega

/-- The loop over the named entries inside makeRootFolder of bm.go. -/
def rootLoop (key : String) (folder : Folder) (fields : List (String × JValue)) :
    Except BMError Folder :=
  match fields with
  | [] => .ok folder
  | (k, v) :: rest =>
    match Folder.add folder k v with
    | .error e => .error (mapError key e)
    | .ok folder2 => rootLoop key folder2 rest
termination_by 2 * sizeOf fields
decreasing_by
  all_goals simp
  all_goals omega

end

/-- buildTree of bm.go: the parse entry point, applied to the value of the
top-level field named roots. -/
def buildTree (key : String) (item : JValue) : Except BMError Folder :=
  match item with
  | JValue.obj fields => makeRootFolder key fields
  | _ => .error .invalidRoot

/-
HTML generator of bm.go.  The Go type fhtml is a function from a string sink
to an error; the only failures are sink failures, and with a sink that never
fails a composite emitter writes exactly the concatenation, in order, of the
texts written by its parts.  An emitter is therefore modelled by the string
it writes to a never-failing sink.
-/

/-- Model of html.EscapeString of the Go standard library applied to one
character: the five special characters become their HTML entities, every
other character is kept. -/
def escapeChar (c : Char) : List Char :=
  if c = '&' then "&amp;".data
  else if c = Char.ofNat 39 then "&#39;".data
  else if c = '<' then "&lt;".data
  else if c = '>' then "&gt;".data
  else if c = '"' then "&#34;".data
  else [c]

def escapeList : List Char → List Char
  | [] => []
  | c :: rest => escapeChar c ++ escapeList rest

/-- Model of html.EscapeString of the Go standard library (its replacer
rewrites the five single-character patterns left to right, which is the
character-wise map below). -/
def escapeString (s : String) : String := String.mk (escapeList s.data)

def htmlNil : String := ""

def htmlRawText (text : String) : String := text

def htmlText (text : String) : String := htmlRawText (escapeString text)

def htmlList : List String → String
  | [] => ""
  | f :: rest => f ++ htmlList rest

def htmlListArgs (fns : List String) : String := htmlList fns

def htmlTag (tag : String) (fn : String) : String :=
  htmlListArgs [htmlRawText ("<" ++ tag ++ ">"), fn, htmlRawText ("</" ++ tag ++ ">")]

/-- htmlLink of bm.go: fmt.Sprintf of the anchor template with the two
escaped strings substituted. -/
def htmlLink (link : String) (text : String) : String :=
  htmlRawText ("<a href=\x22" ++ escapeString link ++ "\x22>" ++ escapeString text ++ "</a>")

def folderName (folder : Folder) : String :=
  htmlTag "h4" (htmlText folder.node.Name)

def folderLinks (folder : Folder) : String :=
  match folder.Links with
  | [] => htmlNil
  | links => htmlTag "dl" (htmlList (links.map (fun lnk => htmlTag "dt" (htmlLink lnk.URL lnk.node.Name))))

mutual

/-- The emitter built for one folder inside folderList of bm.go: the
htmlListArgs of the folder name, the folder links and the nested list. -/
def folderEntry (folder : Folder) : String :=
  htmlListArgs [folderName folder, folderLinks folder, folderList folder.Folders]
termination_by 2 * sizeOf folder
decreasing_by
  cases folder with
  | mk n ls fs =>
    simp [Folder.Folders]
    omega

/-- The concatenation of the li-wrapped entries inside folderList of
bm.go (htmlList applied to the fns array). -/
def folderItems (folders : List Folder) : String :=
  match folders with
  | [] => ""
  | f :: rest => htmlTag "li" (folderEntry f) ++ folderItems rest
termination_by 2 * sizeOf folders
decreasing_by
  all_goals simp
  all_goals omega

/-- folderList of bm.go. -/
def folderList (folders : List Folder) : String :=
  match folders with
  | [] => htmlNil
  | f :: rest => htmlTag "ul" (folderItems (f :: rest))
termination_by 2 * sizeOf folders + 1
decreasing_by
  all_goals omega

end

/-- The htmlHeader constant of bm.go. -/
def htmlHeader : String :=
  "<!DOCTYPE HTML><html>\n<head>\n<meta charset=\x22utf-8\x22/><title>Bookmarks</title><style> ul \x7b list-style-type: disc; \x7d </style>\n</head>\n"

/-- foldersToHTML of bm.go (the emitted text). -/
def foldersToHTML (folders : List Folder) : String :=
  htmlListArgs [htmlRawText htmlHeader, htmlTag "body" (folderList folders), htmlRawText "</html>\n"]

/-
Arithmetic facts about the timestamp decoder.
-/

theorem wrap64_eq_self (x : Int) (h0 : -(2 ^ 63) ≤ x) (h1 : x < 2 ^ 63) :
    wrap64 x = x := by
  have hlt : x + 2 ^ 63 < 2 ^ 64 := by norm_num at h1 ⊢; omega
  have hge : 0 ≤ x + 2 ^ 63 := by norm_num at h0 ⊢; omega
  unfold wrap64
  rw [Int.emod_eq_of_lt hge hlt]
  ring

theorem tsLoop_spec : ∀ (n : Nat) (val ts : Int), val.toNat ≤ n → 0 ≤ val →
    (tsLoop val ts).2 + 1000 * (tsLoop val ts).1 = ts + 1000 * val ∧
    0 ≤ (tsLoop val ts).1 ∧ (tsLoop val ts).1 < twoCenturies := by
  intro n
  induction n with
  | zero =>
    intro val ts hle h0
    have hv : val = 0 := by omega
    subst hv
    rw [tsLoop.eq_def]
    norm_num [twoCenturies]
  | succ n ih =>
    intro val ts hle h0
    rw [tsLoop.eq_def]
    by_cases hc : twoCenturies ≤ val
    · rw [dif_pos hc]
      have hC : twoCenturies = 6307200000000000 := by norm_num [twoCenturies]
      have h1 : (val - twoCenturies).toNat ≤ n := by rw [hC]; omega
      have h2 : 0 ≤ val - twoCenturies := by omega
      have hw : wrap64 (twoCenturies * 1000) = twoCenturies * 1000 := by
        apply wrap64_eq_self <;> rw [hC] <;> norm_num
      obtain ⟨hsum, hlo, hhi⟩ := ih (val - twoCenturies) (ts + wrap64 (twoCenturies * 1000)) h1 h2
      refine ⟨?_, hlo, hhi⟩
      rw [hsum, hw]
      ring
    · rw [dif_neg hc]
      refine ⟨rfl, h0, ?_⟩
      show val < twoCenturies
      omega

/-- The chunked accumulation of readTimeStamp computes the exact instant:
for every non-negative count of microseconds representable in a signed
64-bit integer, the decoded time is googleEpoch plus exactly 1000 times the
count in nanoseconds, with every Duration conversion staying in range. -/
theorem decodeTimeStamp_eq (val : Int) (h0 : 0 ≤ val) (h1 : val < 2 ^ 63) :
    decodeTimeStamp val = googleEpoch + 1000 * val := by
  obtain ⟨hsum, hlo, hhi⟩ := tsLoop_spec val.toNat val googleEpoch (by omega) h0
  have hC : twoCenturies = 6307200000000000 := by norm_num [twoCenturies]
  rw [hC] at hhi
  have hw : wrap64 ((tsLoop val googleEpoch).1 * 1000) = (tsLoop val googleEpoch).1 * 1000 := by
    apply wrap64_eq_self <;> norm_num <;> omega
  unfold decodeTimeStamp
  rw [hw]
  omega

/-
Step lemmas for the tree builder: one unfolding of each function of the
mutual block, in the form used both by the structural proofs and by the
evaluations at concrete inputs.
-/

theorem add_str (root : Folder) (key s : String) :
    Folder.add root key (JValue.str s) = .error (.parser key "Unexpected node type") := by
  rw [Folder.add.eq_def]

theorem add_num (root : Folder) (key : String) (x : Int) :
    Folder.add root key (JValue.num x) = .error (.parser key "Unexpected node type") := by
  rw [Folder.add.eq_def]

theorem add_bool (root : Folder) (key : String) (b : Bool) :
    Folder.add root key (JValue.bool b) = .error (.parser key "Unexpected node type") := by
  rw [Folder.add.eq_def]

theorem add_null (root : Folder) (key : String) :
    Folder.add root key JValue.null = .error (.parser key "Unexpected node type") := by
  rw [Folder.add.eq_def]

theorem add_arr (root : Folder) (key : String) (items : List JValue) :
    Folder.add root key (JValue.arr items) = .error (.parser key "Unexpected node type") := by
  rw [Folder.add.eq_def]

theorem add_folder_tag (root : Folder) (key : String) (fields : List (String × JValue))
    (h : jlookup "type" fields = some (JValue.str "folder")) :
    Folder.add root key (JValue.obj fields) = root.addFolder (makeChildFolder key fields) := by
  rw [Folder.add.eq_def]
  simp [h]

theorem add_url_tag (root : Folder) (key : String) (fields : List (String × JValue))
    (h : jlookup "type" fields = some (JValue.str "url")) :
    Folder.add root key (JValue.obj fields) = root.addLink (makeLink key fields) := by
  rw [Folder.add.eq_def]
  simp [h]

theorem add_unknown_tag (root : Folder) (key : String) (fields : List (String × JValue))
    (tt : String) (h : jlookup "type" fields = some (JValue.str tt))
    (h1 : tt ≠ "folder") (h2 : tt ≠ "url") :
    Folder.add root key (JValue.obj fields) =
      .error (.parser key ("Unknown type \x22" ++ tt ++ "\x22")) := by
  rw [Folder.add.eq_def]
  simp [h, h1, h2]

theorem add_tag_not_string (root : Folder) (key : String) (fields : List (String × JValue))
    (t : JValue) (h : jlookup "type" fields = some t) (hs : ∀ s, t ≠ JValue.str s) :
    Folder.add root key (JValue.obj fields) =
      .error (.parser key "Type tag is not a string") := by
  rw [Folder.add.eq_def]
  cases t with
  | str s => exact absurd rfl (hs s)
  | num x => simp [h]
  | bool b => simp [h]
  | null => simp [h]
  | arr items => simp [h]
  | obj fs => simp [h]

theorem add_untyped (root : Folder) (key : String) (fields : List (String × JValue))
    (h : jlookup "type" fields = none) :
    Folder.add root key (JValue.obj fields) = root.addFolder (makeRootFolder key fields) := by
  rw [Folder.add.eq_def]
  simp [h]

theorem makeChildFolder_read_error (key : String) (fields : List (String × JValue))
    (e : BMError) (h : Node.read key fields = .error e) :
    makeChildFolder key fields = .error (mapError key e) := by
  rw [makeChildFolder.eq_def]
  simp [h]

theorem makeChildFolder_no_children (key : String) (fields : List (String × JValue))
    (n : Node) (h : Node.read key fields = .ok n)
    (hc : jlookup "children" fields = none) :
    makeChildFolder key fields = .ok (Folder.mk n [] []) := by
  rw [makeChildFolder.eq_def]
  simp only [h]
  split <;> simp_all

theorem makeChildFolder_children (key : String) (fields : List (String × JValue))
    (n : Node) (cc : List JValue) (h : Node.read key fields = .ok n)
    (hc : jlookup "children" fields = some (JValue.arr cc)) :
    makeChildFolder key fields = addChildren key (Folder.mk n [] []) 0 cc := by
  rw [makeChildFolder.eq_def]
  simp only [h]
  split <;> simp_all

theorem makeChildFolder_bad_children (key : String) (fields : List (String × JValue))
    (n : Node) (c : JValue) (h : Node.read key fields = .ok n)
    (hc : jlookup "children" fields = some c) (ha : ∀ cc, c ≠ JValue.arr cc) :
    makeChildFolder key fields = .error (.parser key "Unexpected \x22children\x22 type") := by
  rw [makeChildFolder.eq_def]
  simp only [h]
  split
  · simp_all
  · rename_i cc heq
    rw [hc] at heq
    obtain rfl : c = JValue.arr cc := by injection heq
    exact absurd rfl (ha cc)
  · rfl

theorem addChildren_nil (key : String) (folder : Folder) (i : Nat) :
    addChildren key folder i [] = .ok folder := by
  rw [addChildren.eq_def]

theorem addChildren_cons_ok (key : String) (folder folder2 : Folder) (i : Nat)
    (v : JValue) (rest : List JValue)
    (h : Folder.add folder ("#" ++ toString i) v = .ok folder2) :
    addChildren key folder i (v :: rest) = addChildren key folder2 (i + 1) rest := by
  rw [addChildren.eq_def]
  simp [h]

theorem addChildren_cons_error (key : String) (folder : Folder) (i : Nat)
    (v : JValue) (rest : List JValue) (e : BMError)
    (h : Folder.add folder ("#" ++ toString i) v = .error e) :
    addChildren key folder i (v :: rest) = .error (mapError key e) := by
  rw [addChildren.eq_def]
  simp [h]

theorem makeRootFolder_def (key : String) (fields : List (String × JValue)) :
    makeRootFolder key fields =
      rootLoop key (Folder.mk { Name := key, Key := key, Added := 0, Modified := 0 } [] []) fields := by
  rw [makeRootFolder.eq_def]

theorem rootLoop_nil (key : String) (folder : Folder) :
    rootLoop key folder [] = .ok folder := by
  rw [rootLoop.eq_def]

theorem rootLoop_cons_ok (key : String) (folder folder2 : Folder) (k : String)
    (v : JValue) (rest : List (String × JValue))
    (h : Folder.add folder k v = .ok folder2) :
    rootLoop key folder ((k, v) :: rest) = rootLoop key folder2 rest := by
  rw [rootLoop.eq_def]
  simp [h]

theorem rootLoop_cons_error (key : String) (folder : Folder) (k : String)
    (v : JValue) (rest : List (String × JValue)) (e : BMError)
    (h : Folder.add folder k v = .error e) :
    rootLoop key folder ((k, v) :: rest) = .error (mapError key e) := by
  rw [rootLoop.eq_def]
  simp [h]

/-
Helper notions used to state the claims about escaping and about occurrence
counts in the rendered output.
-/

/-- Whether the pattern occurs at the head of the text. -/
def matchesAt : List Char → List Char → Bool
  | [], _ => true
  | _ :: _, [] => false
  | p :: ps, c :: cs => p = c && matchesAt ps cs

/-- Number of positions of the text where the pattern occurs. -/
def countOcc (pat : List Char) : List Char → Nat
  | [] => 0
  | c :: cs => (if matchesAt pat (c :: cs) = true then 1 else 0) + countOcc pat cs

theorem matchesAt_append (p rest : List Char) : matchesAt p (p ++ rest) = true := by
  induction p with
  | nil => rfl
  | cons c cs ih => simp [matchesAt, ih]

/-- The tails of the five entities produced by html.EscapeString. -/
def entityTails : List (List Char) :=
  ["amp;".data, "#39;".data, "lt;".data, "gt;".data, "#34;".data]

/-- Every ampersand of the text opens one of the five entities. -/
def ampersandsEscaped : List Char → Bool
  | [] => true
  | c :: cs =>
    if c = '&' then (entityTails.any (fun p => matchesAt p cs)) && ampersandsEscaped cs
    else ampersandsEscaped cs

/-- Decoder of the five standard entities, following the standard HTML
entity rules the specification appeals to; used only to state that escaping
is faithful (decoding the escaped text recovers the original). -/
def unescapeList : List Char → List Char
  | [] => []
  | c :: cs =>
    if c = '&' then
      if matchesAt "amp;".data cs = true then '&' :: unescapeList (cs.drop 4)
      else if matchesAt "#39;".data cs = true then Char.ofNat 39 :: unescapeList (cs.drop 4)
      else if matchesAt "lt;".data cs = true then '<' :: unescapeList (cs.drop 3)
      else if matchesAt "gt;".data cs = true then '>' :: unescapeList (cs.drop 3)
      else if matchesAt "#34;".data cs = true then '"' :: unescapeList (cs.drop 4)
      else c :: unescapeList cs
    else c :: unescapeList cs
termination_by l => l.length
decreasing_by
  all_goals simp
  all_goals omega

theorem escapeChar_no_specials (d c : Char) (hc : c ∈ escapeChar d) :
    c ≠ '<' ∧ c ≠ '>' ∧ c ≠ '"' ∧ c ≠ Char.ofNat 39 := by
  unfold escapeChar at hc
  by_cases h1 : d = '&'
  · simp [h1] at hc
    rcases hc with rfl | rfl | rfl | rfl | rfl <;> decide
  · by_cases h2 : d = Char.ofNat 39
    · simp [h1, h2] at hc
      rcases hc with rfl | rfl | rfl | rfl | rfl <;> decide
    · by_cases h3 : d = '<'
      · simp [h1, h2, h3] at hc
        rcases hc with rfl | rfl | rfl | rfl <;> decide
      · by_cases h4 : d = '>'
        · simp [h1, h2, h3, h4] at hc
          rcases hc with rfl | rfl | rfl | rfl <;> decide
        · by_cases h5 : d = '"'
          · simp [h1, h2, h3, h4, h5] at hc
            rcases hc with rfl | rfl | rfl | rfl | rfl <;> decide
          · simp [h1, h2, h3, h4, h5] at hc
            subst hc
            exact ⟨h3, h4, h5, h2⟩

theorem escapeList_no_specials (l : List Char) (c : Char) (hc : c ∈ escapeList l) :
    c ≠ '<' ∧ c ≠ '>' ∧ c ≠ '"' ∧ c ≠ Char.ofNat 39 := by
  induction l with
  | nil => simp [escapeList] at hc
  | cons d rest ih =>
    simp only [escapeList, List.mem_append] at hc
    rcases hc with hc | hc
    · exact escapeChar_no_specials d c hc
    · exact ih hc

theorem escapeList_amp_escaped (l : List Char) :
    ampersandsEscaped (escapeList l) = true := by
  induction l with
  | nil => rfl
  | cons d rest ih =>
    show ampersandsEscaped (escapeChar d ++ escapeList rest) = true
    by_cases h1 : d = '&'
    · simp [h1, escapeChar, ampersandsEscaped, entityTails, matchesAt, matchesAt_append, ih]
    · by_cases h2 : d = Char.ofNat 39
      · simp [h1, h2, escapeChar, ampersandsEscaped, entityTails, matchesAt, matchesAt_append, ih]
      · by_cases h3 : d = '<'
        · simp [h1, h2, h3, escapeChar, ampersandsEscaped, entityTails, matchesAt, matchesAt_append, ih]
        · by_cases h4 : d = '>'
          · simp [h1, h2, h3, h4, escapeChar, ampersandsEscaped, entityTails, matchesAt, matchesAt_append, ih]
          · by_cases h5 : d = '"'
            · simp [h1, h2, h3, h4, h5, escapeChar, ampersandsEscaped, entityTails, matchesAt, matchesAt_append, ih]
            · simp [h1, h2, h3, h4, h5, escapeChar, ampersandsEscaped, ih]

theorem unescape_escapeList (l : List Char) :
    unescapeList (escapeList l) = l := by
  induction l with
  | nil => simp [escapeList, unescapeList]
  | cons d rest ih =>
    show unescapeList (escapeChar d ++ escapeList rest) = d :: rest
    by_cases h1 : d = '&'
    · simp [h1, escapeChar, unescapeList, matchesAt, ih]
    · by_cases h2 : d = Char.ofNat 39
      · simp [h1, h2, escapeChar, unescapeList, matchesAt, ih]
      · by_cases h3 : d = '<'
        · simp [h1, h2, h3, escapeChar, unescapeList, matchesAt, ih]
        · by_cases h4 : d = '>'
          · simp [h1, h2, h3, h4, escapeChar, unescapeList, matchesAt, ih]
          · by_cases h5 : d = '"'
            · simp [h1, h2, h3, h4, h5, escapeChar, unescapeList, matchesAt, ih]
            · simp [h1, h2, h3, h4, h5, escapeChar, unescapeList, ih]

/-
Path qualification of errors: support for the claims about mapError.
-/

/-- The error is a parser error whose path is the given key or starts with
the given key followed by a slash. -/
def pathHasKey (key : String) (e : BMError) : Prop :=
  ∃ msg, e = .parser key msg ∨ ∃ rest, e = .parser (key ++ "/" ++ rest) msg

theorem string_length_pos (s : String) (h : s ≠ "") : s.length > 0 := by
  cases s with
  | mk data =>
    cases data with
    | nil => exact absurd rfl h
    | cons c cs => simp [String.length]

theorem mapError_prependsKey (key path msg : String) (h : path ≠ "") :
    mapError key (.parser path msg) = .parser (key ++ "/" ++ path) msg := by
  simp [mapError, string_length_pos path h]

theorem mapError_pathHasKey (key : String) (e : BMError) :
    pathHasKey key (mapError key e) := by
  cases e with
  | parser path msg =>
    by_cases h : path.length > 0
    · simp only [mapError, if_pos h]
      exact ⟨msg, Or.inr ⟨path, rfl⟩⟩
    · simp only [mapError, if_neg h]
      exact ⟨msg, Or.inl rfl⟩
  | keyNotFound k => exact ⟨_, Or.inl rfl⟩
  | notAString k => exact ⟨_, Or.inl rfl⟩
  | notAnInteger k v => exact ⟨_, Or.inl rfl⟩
  | invalidRoot => exact ⟨_, Or.inl rfl⟩

theorem addFolder_ok (n : Node) (ls : List Link) (fs : List Folder) (child : Folder) :
    Folder.addFolder (Folder.mk n ls fs) (.ok child) = .ok (Folder.mk n ls (fs ++ [child])) := rfl

theorem addFolder_error (f : Folder) (e : BMError) :
    Folder.addFolder f (.error e) = .error e := by
  cases f
  rfl

theorem addLink_ok (n : Node) (ls : List Link) (fs : List Folder) (child : Link) :
    Folder.addLink (Folder.mk n ls fs) (.ok child) = .ok (Folder.mk n (ls ++ [child]) fs) := rfl

theorem addLink_error (f : Folder) (e : BMError) :
    Folder.addLink f (.error e) = .error e := by
  cases f
  rfl

theorem makeLink_error (key : String) (data : List (String × JValue)) (e : BMError)
    (h : makeLink key data = .error e) : pathHasKey key e := by
  unfold makeLink at h
  cases hn : Node.read key data with
  | error e1 =>
    rw [hn] at h
    simp at h
    rw [← h]
    exact mapError_pathHasKey key e1
  | ok n =>
    rw [hn] at h
    cases hu : readString "url" data with
    | error e1 =>
      rw [hu] at h
      simp at h
      rw [← h]
      exact mapError_pathHasKey key e1
    | ok url =>
      rw [hu] at h
      simp at h

theorem addChildren_error_pathHasKey (key : String) :
    ∀ (cc : List JValue) (folder : Folder) (i : Nat) (e : BMError),
      addChildren key folder i cc = .error e → pathHasKey key e := by
  intro cc
  induction cc with
  | nil =>
    intro folder i e h
    rw [addChildren_nil] at h
    simp at h
  | cons v rest ih =>
    intro folder i e h
    cases hadd : Folder.add folder ("#" ++ toString i) v with
    | error e1 =>
      rw [addChildren_cons_error key folder i v rest e1 hadd] at h
      simp at h
      rw [← h]
      exact mapError_pathHasKey key e1
    | ok folder2 =>
      rw [addChildren_cons_ok key folder folder2 i v rest hadd] at h
      exact ih folder2 (i + 1) e h

theorem rootLoop_error_pathHasKey (key : String) :
    ∀ (fields : List (String × JValue)) (folder : Folder) (e : BMError),
      rootLoop key folder fields = .error e → pathHasKey key e := by
  intro fields
  induction fields with
  | nil =>
    intro folder e h
    rw [rootLoop_nil] at h
    simp at h
  | cons kv rest ih =>
    intro folder e h
    obtain ⟨k, v⟩ := kv
    cases hadd : Folder.add folder k v with
    | error e1 =>
      rw [rootLoop_cons_error key folder k v rest e1 hadd] at h
      simp at h
      rw [← h]
      exact mapError_pathHasKey key e1
    | ok folder2 =>
      rw [rootLoop_cons_ok key folder folder2 k v rest hadd] at h
      exact ih folder2 e h

theorem makeRootFolder_error_pathHasKey (key : String) (fields : List (String × JValue))
    (e : BMError) (h : makeRootFolder key fields = .error e) : pathHasKey key e := by
  rw [makeRootFolder_def] at h
  exact rootLoop_error_pathHasKey key fields _ e h

theorem makeChildFolder_error_pathHasKey (key : String) (fields : List (String × JValue))
    (e : BMError) (h : makeChildFolder key fields = .error e) : pathHasKey key e := by
  cases hn : Node.read key fields with
  | error e1 =>
    rw [makeChildFolder_read_error key fields e1 hn] at h
    simp at h
    rw [← h]
    exact mapError_pathHasKey key e1
  | ok n =>
    cases hc : jlookup "children" fields with
    | none =>
      rw [makeChildFolder_no_children key fields n hn hc] at h
      simp at h
    | some c =>
      cases c with
      | arr cc =>
        rw [makeChildFolder_children key fields n cc hn hc] at h
        exact addChildren_error_pathHasKey key cc _ 0 e h
      | str s =>
        rw [makeChildFolder_bad_children key fields n _ hn hc (by intro cc; simp)] at h
        simp at h
        rw [← h]
        exact ⟨_, Or.inl rfl⟩
      | num x =>
        rw [makeChildFolder_bad_children key fields n _ hn hc (by intro cc; simp)] at h
        simp at h
        rw [← h]
        exact ⟨_, Or.inl rfl⟩
      | bool b =>
        rw [makeChildFolder_bad_children key fields n _ hn hc (by intro cc; simp)] at h
        simp at h
        rw [← h]
        exact ⟨_, Or.inl rfl⟩
      | null =>
        rw [makeChildFolder_bad_children key fields n _ hn hc (by intro cc; simp)] at h
        simp at h
        rw [← h]
        exact ⟨_, Or.inl rfl⟩
      | obj fs =>
        rw [makeChildFolder_bad_children key fields n _ hn hc (by intro cc; simp)] at h
        simp at h
        rw [← h]
        exact ⟨_, Or.inl rfl⟩

theorem add_error_pathHasKey (root : Folder) (key : String) (item : JValue)
    (e : BMError) (h : Folder.add root key item = .error e) : pathHasKey key e := by
  cases item with
  | str s =>
    rw [add_str] at h
    simp at h
    exact ⟨_, Or.inl h.symm⟩
  | num x =>
    rw [add_num] at h
    simp at h
    exact ⟨_, Or.inl h.symm⟩
  | bool b =>
    rw [add_bool] at h
    simp at h
    exact ⟨_, Or.inl h.symm⟩
  | null =>
    rw [add_null] at h
    simp at h
    exact ⟨_, Or.inl h.symm⟩
  | arr items =>
    rw [add_arr] at h
    simp at h
    exact ⟨_, Or.inl h.symm⟩
  | obj fields =>
    cases ht : jlookup "type" fields with
    | none =>
      rw [add_untyped root key fields ht] at h
      cases hm : makeRootFolder key fields with
      | error e1 =>
        rw [hm, addFolder_error] at h
        simp at h
        rw [← h]
        exact makeRootFolder_error_pathHasKey key fields e1 hm
      | ok child =>
        cases root with
        | mk n ls fs =>
          rw [hm, addFolder_ok] at h
          simp at h
    | some t =>
      cases t with
      | str tt =>
        by_cases hf : tt = "folder"
        · subst hf
          rw [add_folder_tag root key fields ht] at h
          cases hm : makeChildFolder key fields with
          | error e1 =>
            rw [hm, addFolder_error] at h
            simp at h
            rw [← h]
            exact makeChildFolder_error_pathHasKey key fields e1 hm
          | ok child =>
            cases root with
            | mk n ls fs =>
              rw [hm, addFolder_ok] at h
              simp at h
        · by_cases hu : tt = "url"
          · subst hu
            rw [add_url_tag root key fields ht] at h
            cases hm : makeLink key fields with
            | error e1 =>
              rw [hm, addLink_error] at h
              simp at h
              rw [← h]
              exact makeLink_error key fields e1 hm
            | ok child =>
              cases root with
              | mk n ls fs =>
                rw [hm, addLink_ok] at h
                simp at h
          · rw [add_unknown_tag root key fields tt ht hf hu] at h
            simp at h
            exact ⟨_, Or.inl h.symm⟩
      | num x =>
        rw [add_tag_not_string root key fields _ ht (by intro s; simp)] at h
        simp at h
        exact ⟨_, Or.inl h.symm⟩
      | bool b =>
        rw [add_tag_not_string root key fields _ ht (by intro s; simp)] at h
        simp at h
        exact ⟨_, Or.inl h.symm⟩
      | null =>
        rw [add_tag_not_string root key fields _ ht (by intro s; simp)] at h
        simp at h
        exact ⟨_, Or.inl h.symm⟩
      | arr items =>
        rw [add_tag_not_string root key fields _ ht (by intro s; simp)] at h
        simp at h
        exact ⟨_, Or.inl h.symm⟩
      | obj fs =>
        rw [add_tag_not_string root key fields _ ht (by intro s; simp)] at h
        simp at h
        exact ⟨_, Or.inl h.symm⟩

/-
Characterization of the renderer: one rendered folder entry is the escaped
name heading, then the definition list of the links when there is at least
one link, then the unordered list of the subfolder entries when there is at
least one subfolder.
-/

theorem folderLinks_nil (n : Node) (fs : List Folder) :
    folderLinks (Folder.mk n [] fs) = "" := rfl

theorem folderLinks_cons (n : Node) (l : Link) (ls : List Link) (fs : List Folder) :
    folderLinks (Folder.mk n (l :: ls) fs) =
      htmlTag "dl" (htmlList ((l :: ls).map
        (fun lnk => htmlTag "dt" (htmlLink lnk.URL lnk.node.Name)))) := rfl

theorem folderItems_eq (fs : List Folder) :
    folderItems fs = htmlList (fs.map (fun f => htmlTag "li" (folderEntry f))) := by
  induction fs with
  | nil => rw [folderItems.eq_def]; rfl
  | cons f rest ih =>
    rw [folderItems.eq_def]
    simp only [List.map_cons]
    rw [ih]
    rfl

theorem folderList_nil : folderList [] = "" := by
  rw [folderList.eq_def]
  rfl

theorem folderList_cons (f : Folder) (rest : List Folder) :
    folderList (f :: rest) = htmlTag "ul" (folderItems (f :: rest)) := by
  rw [folderList.eq_def]

theorem folderEntry_eq (n : Node) (ls : List Link) (fs : List Folder) :
    folderEntry (Folder.mk n ls fs) =
      htmlTag "h4" (escapeString n.Name)
      ++ (match ls with
          | [] => ""
          | _ :: _ => htmlTag "dl" (htmlList (ls.map
              (fun lnk => htmlTag "dt" (htmlLink lnk.URL lnk.node.Name)))))
      ++ (match fs with
          | [] => ""
          | _ :: _ => htmlTag "ul" (htmlList (fs.map
              (fun f => htmlTag "li" (folderEntry f))))) := by
  rw [folderEntry.eq_def]
  simp only [Folder.Folders]
  cases ls with
  | nil =>
    cases fs with
    | nil =>
      rw [folderList_nil]
      simp [htmlListArgs, htmlList, folderName, folderLinks_nil, htmlText, htmlRawText, htmlNil,
        Folder.node]
    | cons f rest =>
      rw [folderList_cons, folderItems_eq]
      simp [htmlListArgs, htmlList, folderName, folderLinks_nil, htmlText, htmlRawText, htmlNil,
        Folder.node]
  | cons l ls2 =>
    cases fs with
    | nil =>
      rw [folderList_nil]
      simp [htmlListArgs, htmlList, folderName, folderLinks_cons, htmlText, htmlRawText, htmlNil,
        Folder.node]
    | cons f rest =>
      rw [folderList_cons, folderItems_eq]
      simp [htmlListArgs, htmlList, folderName, folderLinks_cons, htmlText, htmlRawText, htmlNil,
        Folder.node, String.append_assoc]

/-
Order preservation: the links and the folders a children array contributes,
in source order.  These two functions restate, element by element, which
list of the folder each dispatched child is appended to by Folder.add; they
are the specification side of the order-preservation claim.
-/

/-- The link contributed by one element of a children array (empty when the
element is not dispatched to makeLink or when makeLink fails). -/
def childLinkOf (i : Nat) (v : JValue) : List Link :=
  match v with
  | JValue.obj fields =>
    match jlookup "type" fields with
    | some (JValue.str tt) =>
      if tt = "url" then
        match makeLink ("#" ++ toString i) fields with
        | .ok l => [l]
        | .error _ => []
      else []
    | _ => []
  | _ => []

/-- The folder contributed by one element of a children array. -/
def childFolderOf (i : Nat) (v : JValue) : List Folder :=
  match v with
  | JValue.obj fields =>
    match jlookup "type" fields with
    | some (JValue.str tt) =>
      if tt = "folder" then
        match makeChildFolder ("#" ++ toString i) fields with
        | .ok f => [f]
        | .error _ => []
      else []
    | some _ => []
    | none =>
      match makeRootFolder ("#" ++ toString i) fields with
      | .ok f => [f]
      | .error _ => []
  | _ => []

def childLinks : Nat → List JValue → List Link
  | _, [] => []
  | i, v :: rest => childLinkOf i v ++ childLinks (i + 1) rest

def childFolders : Nat → List JValue → List Folder
  | _, [] => []
  | i, v :: rest => childFolderOf i v ++ childFolders (i + 1) rest

/-- One successful dispatch appends the contributed link to the link list
and the contributed folder to the folder list, leaving the rest of the
folder unchanged. -/
theorem add_ok_shape (folder folder2 : Folder) (i : Nat) (v : JValue)
    (h : Folder.add folder ("#" ++ toString i) v = .ok folder2) :
    folder2.node = folder.node ∧
    folder2.Links = folder.Links ++ childLinkOf i v ∧
    folder2.Folders = folder.Folders ++ childFolderOf i v := by
  obtain ⟨n, ls, fs⟩ := folder
  cases v with
  | str s => rw [add_str] at h; simp at h
  | num x => rw [add_num] at h; simp at h
  | bool b => rw [add_bool] at h; simp at h
  | null => rw [add_null] at h; simp at h
  | arr items => rw [add_arr] at h; simp at h
  | obj fields =>
    cases ht : jlookup "type" fields with
    | none =>
      rw [add_untyped _ _ fields ht] at h
      cases hm : makeRootFolder ("#" ++ toString i) fields with
      | error e1 => rw [hm, addFolder_error] at h; simp at h
      | ok child =>
        rw [hm, addFolder_ok] at h
        simp at h
        subst h
        simp [childLinkOf, childFolderOf, ht, hm, Folder.node, Folder.Links, Folder.Folders]
    | some t =>
      cases t with
      | str tt =>
        by_cases hf : tt = "folder"
        · subst hf
          rw [add_folder_tag _ _ fields ht] at h
          cases hm : makeChildFolder ("#" ++ toString i) fields with
          | error e1 => rw [hm, addFolder_error] at h; simp at h
          | ok child =>
            rw [hm, addFolder_ok] at h
            simp at h
            subst h
            simp [childLinkOf, childFolderOf, ht, hm, Folder.node, Folder.Links, Folder.Folders]
        · by_cases hu : tt = "url"
          · subst hu
            rw [add_url_tag _ _ fields ht] at h
            cases hm : makeLink ("#" ++ toString i) fields with
            | error e1 => rw [hm, addLink_error] at h; simp at h
            | ok child =>
              rw [hm, addLink_ok] at h
              simp at h
              subst h
              simp [childLinkOf, childFolderOf, ht, hm, Folder.node, Folder.Links, Folder.Folders]
          · rw [add_unknown_tag _ _ fields tt ht hf hu] at h
            simp at h
      | num x => rw [add_tag_not_string _ _ fields _ ht (by intro s; simp)] at h; simp at h
      | bool b => rw [add_tag_not_string _ _ fields _ ht (by intro s; simp)] at h; simp at h
      | null => rw [add_tag_not_string _ _ fields _ ht (by intro s; simp)] at h; simp at h
      | arr items => rw [add_tag_not_string _ _ fields _ ht (by intro s; simp)] at h; simp at h
      | obj fs2 => rw [add_tag_not_string _ _ fields _ ht (by intro s; simp)] at h; simp at h

/-- A successful run over a children array appends exactly the contributed
links and the contributed folders, in source order. -/
theorem addChildren_ok_shape (key : String) :
    ∀ (cc : List JValue) (folder folder2 : Folder) (i : Nat),
      addChildren key folder i cc = .ok folder2 →
      folder2.node = folder.node ∧
      folder2.Links = folder.Links ++ childLinks i cc ∧
      folder2.Folders = folder.Folders ++ childFolders i cc := by
  intro cc
  induction cc with
  | nil =>
    intro folder folder2 i h
    rw [addChildren_nil] at h
    simp at h
    subst h
    simp [childLinks, childFolders]
  | cons v rest ih =>
    intro folder folder2 i h
    cases hadd : Folder.add folder ("#" ++ toString i) v with
    | error e1 =>
      rw [addChildren_cons_error key folder i v rest e1 hadd] at h
      simp at h
    | ok fmid =>
      rw [addChildren_cons_ok key folder fmid i v rest hadd] at h
      obtain ⟨hn1, hl1, hf1⟩ := add_ok_shape folder fmid i v hadd
      obtain ⟨hn2, hl2, hf2⟩ := ih fmid folder2 (i + 1) h
      refine ⟨hn2.trans hn1, ?_, ?_⟩
      · rw [hl2, hl1, childLinks, List.append_assoc]
      · rw [hf2, hf1, childFolders, List.append_assoc]

/-- makeChildFolder of a mapping with a children array builds exactly the
contributed links and folders of that array, in source order. -/
theorem makeChildFolder_ok_shape (key : String) (fields : List (String × JValue))
    (n : Node) (cc : List JValue) (folder : Folder)
    (hn : Node.read key fields = .ok n)
    (hc : jlookup "children" fields = some (JValue.arr cc))
    (h : makeChildFolder key fields = .ok folder) :
    folder.node = n ∧ folder.Links = childLinks 0 cc ∧ folder.Folders = childFolders 0 cc := by
  rw [makeChildFolder_children key fields n cc hn hc] at h
  obtain ⟨h1, h2, h3⟩ := addChildren_ok_shape key cc (Folder.mk n [] []) folder 0 h
  simp [Folder.node, Folder.Links, Folder.Folders] at h1 h2 h3
  exact ⟨h1, h2, h3⟩

/-
Characterization of the scalar readers.
-/

theorem readString_absent (key : String) (data : List (String × JValue))
    (h : jlookup key data = none) : readString key data = .error (.keyNotFound key) := by
  unfold readString
  rw [h]

theorem readString_str (key : String) (data : List (String × JValue)) (s : String)
    (h : jlookup key data = some (JValue.str s)) : readString key data = .ok s := by
  unfold readString
  rw [h]

theorem readString_wrong_type (key : String) (data : List (String × JValue)) (v : JValue)
    (h : jlookup key data = some v) (hv : ∀ s, v ≠ JValue.str s) :
    readString key data = .error (.notAString key) := by
  unfold readString
  rw [h]
  cases v with
  | str s => exact absurd rfl (hv s)
  | num x => rfl
  | bool b => rfl
  | null => rfl
  | arr items => rfl
  | obj fields => rfl

theorem readInt_propagates (key : String) (data : List (String × JValue)) (bitSize : Nat)
    (e : BMError) (h : readString key data = .error e) :
    readInt key data bitSize = .error e := by
  unfold readInt
  rw [h]

theorem readInt_ok (key : String) (data : List (String × JValue)) (bitSize : Nat)
    (s : String) (v : Int) (h : readString key data = .ok s)
    (hp : goParseInt s bitSize = some v) : readInt key data bitSize = .ok v := by
  unfold readInt
  rw [h]
  simp [hp]

theorem readInt_not_integer (key : String) (data : List (String × JValue)) (bitSize : Nat)
    (s : String) (h : readString key data = .ok s) (hp : goParseInt s bitSize = none) :
    readInt key data bitSize = .error (.notAnInteger key s) := by
  unfold readInt
  rw [h]
  simp [hp]

theorem readTimeStamp_ok (key : String) (data : List (String × JValue)) (v : Int)
    (h : readInt key data 64 = .ok v) :
    readTimeStamp key data = .ok (decodeTimeStamp v) := by
  unfold readTimeStamp
  rw [h]

theorem readTimeStamp_propagates (key : String) (data : List (String × JValue)) (e : BMError)
    (h : readInt key data 64 = .error e) : readTimeStamp key data = .error e := by
  unfold readTimeStamp
  rw [h]

theorem readTimeStamp_absent (key : String) (data : List (String × JValue))
    (h : jlookup key data = none) :
    readTimeStamp key data = .error (.keyNotFound key) :=
  readTimeStamp_propagates key data _ (readInt_propagates key data 64 _ (readString_absent key data h))

/-- When the key is present, a failure of readTimeStamp is never a
key-not-found error. -/
theorem readTimeStamp_error_present (key : String) (data : List (String × JValue))
    (v : JValue) (e : BMError) (hp : jlookup key data = some v)
    (he : readTimeStamp key data = .error e) : ∀ k, e ≠ .keyNotFound k := by
  cases v with
  | str s =>
    have hs := readString_str key data s hp
    cases hg : goParseInt s 64 with
    | some n =>
      rw [readTimeStamp_ok key data n (readInt_ok key data 64 s n hs hg)] at he
      simp at he
    | none =>
      rw [readTimeStamp_propagates key data _ (readInt_not_integer key data 64 s hs hg)] at he
      simp at he
      rw [← he]
      intro k
      simp
  | num x =>
    have hs := readString_wrong_type key data _ hp (by intro s; simp)
    rw [readTimeStamp_propagates key data _ (readInt_propagates key data 64 _ hs)] at he
    simp at he
    rw [← he]
    intro k
    simp
  | bool b =>
    have hs := readString_wrong_type key data _ hp (by intro s; simp)
    rw [readTimeStamp_propagates key data _ (readInt_propagates key data 64 _ hs)] at he
    simp at he
    rw [← he]
    intro k
    simp
  | null =>
    have hs := readString_wrong_type key data _ hp (by intro s; simp)
    rw [readTimeStamp_propagates key data _ (readInt_propagates key data 64 _ hs)] at he
    simp at he
    rw [← he]
    intro k
    simp
  | arr items =>
    have hs := readString_wrong_type key data _ hp (by intro s; simp)
    rw [readTimeStamp_propagates key data _ (readInt_propagates key data 64 _ hs)] at he
    simp at he
    rw [← he]
    intro k
    simp
  | obj fields =>
    have hs := readString_wrong_type key data _ hp (by intro s; simp)
    rw [readTimeStamp_propagates key data _ (readInt_propagates key data 64 _ hs)] at he
    simp at he
    rw [← he]
    intro k
    simp

/-
Characterization of Node.read around the optional date_modified field.
-/

theorem nodeRead_modified_absent (key : String) (data : List (String × JValue))
    (name : String) (added : Int)
    (h1 : readString "name" data = .ok name)
    (h2 : readTimeStamp "date_added" data = .ok added)
    (h3 : jlookup "date_modified" data = none) :
    Node.read key data = .ok { Name := name, Key := key, Added := added, Modified := 0 } := by
  unfold Node.read
  rw [h1, h2, readTimeStamp_absent "date_modified" data h3]

theorem nodeRead_modified_bad (key : String) (data : List (String × JValue))
    (name : String) (added : Int) (e : BMError)
    (h1 : readString "name" data = .ok name)
    (h2 : readTimeStamp "date_added" data = .ok added)
    (he : readTimeStamp "date_modified" data = .error e)
    (hne : ∀ k, e ≠ .keyNotFound k) :
    Node.read key data = .error e := by
  unfold Node.read
  rw [h1, h2, he]
  cases e with
  | keyNotFound k => exact absurd rfl (hne k)
  | notAString k => rfl
  | notAnInteger k v => rfl
  | parser p m => rfl
  | invalidRoot => rfl

theorem nodeRead_added_absent (key : String) (data : List (String × JValue))
    (name : String)
    (h1 : readString "name" data = .ok name)
    (h3 : jlookup "date_added" data = none) :
    Node.read key data = .error (.keyNotFound "date_added") := by
  unfold Node.read
  rw [h1, readTimeStamp_absent "date_added" data h3]

theorem makeLink_added_absent (key : String) (data : List (String × JValue))
    (name : String)
    (h1 : readString "name" data = .ok name)
    (h3 : jlookup "date_added" data = none) :
    makeLink key data = .error (.parser key "Tag \x22date_added\x22 is not found") := by
  unfold makeLink
  rw [nodeRead_added_absent key data name h1 h3]
  rfl

/-
Concrete documents.  The value handed to buildTree is the value of the
top-level field named roots, as extracted by loadRawData of bm.go.
-/

def exLinkFields : List (String × JValue) :=
  [("type", JValue.str "url"), ("name", JValue.str "Example"),
   ("url", JValue.str "https://example.com"), ("date_added", JValue.str "13000000000000000")]

def exBarFields : List (String × JValue) :=
  [("name", JValue.str "Bookmarks Bar"), ("date_added", JValue.str "13000000000000000"),
   ("children", JValue.arr [JValue.obj exLinkFields])]

/-- The roots value of the minimal document of the specification: the
bookmark_bar mapping carries no type tag. -/
def minimalRootsVal : JValue := JValue.obj [("bookmark_bar", JValue.obj exBarFields)]

/-- The same mapping with an explicit folder type tag added. -/
def typedBarFields : List (String × JValue) := ("type", JValue.str "folder") :: exBarFields

def typedRootsVal : JValue := JValue.obj [("bookmark_bar", JValue.obj typedBarFields)]

/-- The node built for the bookmark_bar folder of the typed document. -/
def exBarNode : Node :=
  { Name := "Bookmarks Bar", Key := "bookmark_bar",
    Added := decodeTimeStamp 13000000000000000, Modified := 0 }

/-- The link built for the Example bookmark. -/
def exLink : Link :=
  { node := { Name := "Example", Key := "#0",
              Added := decodeTimeStamp 13000000000000000, Modified := 0 },
    URL := "https://example.com" }

def exBarFolder : Folder := Folder.mk exBarNode [exLink] []

def exRootFolder : Folder :=
  Folder.mk { Name := "roots", Key := "roots", Added := 0, Modified := 0 } [] [exBarFolder]

/-- Parsing the minimal untyped document fails: the untyped bookmark_bar
mapping is dispatched through makeRootFolder, which dispatches every one of
its fields as a child node, and the first field (name, a string) is not a
mapping. -/
theorem minimal_parse_fails :
    buildTree "roots" minimalRootsVal =
      .error (.parser "roots/bookmark_bar/name" "Unexpected node type") := by
  have h2 : makeRootFolder "bookmark_bar" exBarFields =
      .error (.parser "bookmark_bar/name" "Unexpected node type") := by
    rw [makeRootFolder_def]
    simp only [exBarFields]
    rw [rootLoop_cons_error "bookmark_bar" _ "name" (JValue.str "Bookmarks Bar") _ _
      (add_str _ _ _)]
    exact congrArg Except.error (by decide)
  have h3 : Folder.add (Folder.mk { Name := "roots", Key := "roots", Added := 0, Modified := 0 } [] [])
      "bookmark_bar" (JValue.obj exBarFields) =
      .error (.parser "bookmark_bar/name" "Unexpected node type") := by
    rw [add_untyped _ "bookmark_bar" exBarFields (by rfl), h2, addFolder_error]
  show makeRootFolder "roots" [("bookmark_bar", JValue.obj exBarFields)] =
    .error (.parser "roots/bookmark_bar/name" "Unexpected node type")
  rw [makeRootFolder_def]
  rw [rootLoop_cons_error "roots" _ "bookmark_bar" (JValue.obj exBarFields) _ _ h3]
  exact congrArg Except.error (by decide)

/-- Parsing the typed variant succeeds and builds the expected tree. -/
theorem typed_parse : buildTree "roots" typedRootsVal = .ok exRootFolder := by
  have hlink : Folder.add (Folder.mk exBarNode [] []) ("#" ++ toString 0)
      (JValue.obj exLinkFields) = .ok (Folder.mk exBarNode [exLink] []) := by
    rw [add_url_tag _ ("#" ++ toString 0) exLinkFields (by rfl)]
    rfl
  have hchild : addChildren "bookmark_bar" (Folder.mk exBarNode [] []) 0
      [JValue.obj exLinkFields] = .ok (Folder.mk exBarNode [exLink] []) := by
    rw [addChildren_cons_ok _ _ _ _ _ _ hlink, addChildren_nil]
  have hbar : makeChildFolder "bookmark_bar" typedBarFields = .ok exBarFolder := by
    rw [makeChildFolder_children "bookmark_bar" typedBarFields exBarNode
      [JValue.obj exLinkFields] (by rfl) (by rfl)]
    exact hchild
  have haddTop : Folder.add
      (Folder.mk { Name := "roots", Key := "roots", Added := 0, Modified := 0 } [] [])
      "bookmark_bar" (JValue.obj typedBarFields) = .ok exRootFolder := by
    rw [add_folder_tag _ "bookmark_bar" typedBarFields (by rfl), hbar, addFolder_ok]
    rfl
  show makeRootFolder "roots" [("bookmark_bar", JValue.obj typedBarFields)] = .ok exRootFolder
  rw [makeRootFolder_def]
  rw [rootLoop_cons_ok "roots" _ _ "bookmark_bar" (JValue.obj typedBarFields) _ haddTop]
  rw [rootLoop_nil]

/-- The full document rendered for the typed variant. -/
def typedDocHTML : String :=
  "<!DOCTYPE HTML><html>\n<head>\n<meta charset=\x22utf-8\x22/><title>Bookmarks</title><style> ul \x7b list-style-type: disc; \x7d </style>\n</head>\n<body><ul><li><h4>Bookmarks Bar</h4><dl><dt><a href=\x22https://example.com\x22>Example</a></dt></dl></li></ul></body></html>\n"

theorem typed_render : foldersToHTML exRootFolder.Folders = typedDocHTML := by
  show foldersToHTML [Folder.mk exBarNode [exLink] []] = typedDocHTML
  unfold foldersToHTML htmlListArgs htmlList
  rw [folderList_cons, folderItems_eq]
  simp only [List.map]
  rw [folderEntry_eq]
  rfl

/-
Concrete children array whose element at index 2 is not an object.
-/

def c3Link0 : List (String × JValue) :=
  [("type", JValue.str "url"), ("name", JValue.str "L0"),
   ("url", JValue.str "u0"), ("date_added", JValue.str "0")]

def c3Link1 : List (String × JValue) :=
  [("type", JValue.str "url"), ("name", JValue.str "L1"),
   ("url", JValue.str "u1"), ("date_added", JValue.str "0")]

def c3Fields : List (String × JValue) :=
  [("name", JValue.str "F"), ("date_added", JValue.str "0"),
   ("children", JValue.arr [JValue.obj c3Link0, JValue.obj c3Link1, JValue.num 5])]

def c3Node : Node := { Name := "F", Key := "folder_key", Added := decodeTimeStamp 0, Modified := 0 }

def c3LinkA : Link :=
  { node := { Name := "L0", Key := "#0", Added := decodeTimeStamp 0, Modified := 0 }, URL := "u0" }

def c3LinkB : Link :=
  { node := { Name := "L1", Key := "#1", Added := decodeTimeStamp 0, Modified := 0 }, URL := "u1" }

/-- A children array whose element at index 2 is not an object fails with
the unexpected-node-type error on the path folder_key/#2. -/
theorem c3_concrete :
    makeChildFolder "folder_key" c3Fields =
      .error (.parser "folder_key/#2" "Unexpected node type") := by
  have h0 : Folder.add (Folder.mk c3Node [] []) ("#" ++ toString 0) (JValue.obj c3Link0)
      = .ok (Folder.mk c3Node [c3LinkA] []) := by
    rw [add_url_tag _ ("#" ++ toString 0) c3Link0 (by rfl)]
    rfl
  have h1 : Folder.add (Folder.mk c3Node [c3LinkA] []) ("#" ++ toString (0 + 1)) (JValue.obj c3Link1)
      = .ok (Folder.mk c3Node [c3LinkA, c3LinkB] []) := by
    rw [add_url_tag _ ("#" ++ toString (0 + 1)) c3Link1 (by rfl)]
    rfl
  have h2 : Folder.add (Folder.mk c3Node [c3LinkA, c3LinkB] []) ("#" ++ toString (0 + 1 + 1)) (JValue.num 5)
      = .error (.parser ("#" ++ toString (0 + 1 + 1)) "Unexpected node type") :=
    add_num _ _ _
  rw [makeChildFolder_children "folder_key" c3Fields c3Node
    [JValue.obj c3Link0, JValue.obj c3Link1, JValue.num 5] (by rfl) (by rfl)]
  rw [addChildren_cons_ok _ _ _ _ _ _ h0]
  rw [addChildren_cons_ok _ _ _ _ _ _ h1]
  rw [addChildren_cons_error _ _ _ _ _ _ h2]
  exact congrArg Except.error (by decide)

/-
Concrete children arrays for the ordering claims: a link A, then a folder B,
then a link C, and the two-element interleavings link-then-folder and
folder-then-link.
-/

def cLinkAFields : List (String × JValue) :=
  [("type", JValue.str "url"), ("name", JValue.str "A"),
   ("url", JValue.str "http://a/"), ("date_added", JValue.str "0")]

def cFolderBFields : List (String × JValue) :=
  [("type", JValue.str "folder"), ("name", JValue.str "B"), ("date_added", JValue.str "0")]

def cLinkCFields : List (String × JValue) :=
  [("type", JValue.str "url"), ("name", JValue.str "C"),
   ("url", JValue.str "http://c/"), ("date_added", JValue.str "0")]

def abcFields : List (String × JValue) :=
  [("name", JValue.str "F"), ("date_added", JValue.str "0"),
   ("children", JValue.arr [JValue.obj cLinkAFields, JValue.obj cFolderBFields, JValue.obj cLinkCFields])]

def abcNode : Node := { Name := "F", Key := "k", Added := decodeTimeStamp 0, Modified := 0 }

def abcLinkA : Link :=
  { node := { Name := "A", Key := "#0", Added := decodeTimeStamp 0, Modified := 0 }, URL := "http://a/" }

def abcLinkC : Link :=
  { node := { Name := "C", Key := "#2", Added := decodeTimeStamp 0, Modified := 0 }, URL := "http://c/" }

def abcFolderB1 : Folder :=
  Folder.mk { Name := "B", Key := "#1", Added := decodeTimeStamp 0, Modified := 0 } [] []

def abcResult : Folder := Folder.mk abcNode [abcLinkA, abcLinkC] [abcFolderB1]

theorem abc_addChildren :
    addChildren "k" (Folder.mk abcNode [] []) 0
      [JValue.obj cLinkAFields, JValue.obj cFolderBFields, JValue.obj cLinkCFields] =
      .ok abcResult := by
  have h0 : Folder.add (Folder.mk abcNode [] []) ("#" ++ toString 0) (JValue.obj cLinkAFields)
      = .ok (Folder.mk abcNode [abcLinkA] []) := by
    rw [add_url_tag _ ("#" ++ toString 0) cLinkAFields (by rfl)]
    rfl
  have h1 : Folder.add (Folder.mk abcNode [abcLinkA] []) ("#" ++ toString (0 + 1)) (JValue.obj cFolderBFields)
      = .ok (Folder.mk abcNode [abcLinkA] [abcFolderB1]) := by
    rw [add_folder_tag _ ("#" ++ toString (0 + 1)) cFolderBFields (by rfl)]
    rw [makeChildFolder_no_children ("#" ++ toString (0 + 1)) cFolderBFields
      { Name := "B", Key := "#1", Added := decodeTimeStamp 0, Modified := 0 } (by rfl) (by rfl)]
    rfl
  have h2 : Folder.add (Folder.mk abcNode [abcLinkA] [abcFolderB1]) ("#" ++ toString (0 + 1 + 1)) (JValue.obj cLinkCFields)
      = .ok (Folder.mk abcNode [abcLinkA, abcLinkC] [abcFolderB1]) := by
    rw [add_url_tag _ ("#" ++ toString (0 + 1 + 1)) cLinkCFields (by rfl)]
    rfl
  rw [addChildren_cons_ok _ _ _ _ _ _ h0]
  rw [addChildren_cons_ok _ _ _ _ _ _ h1]
  rw [addChildren_cons_ok _ _ _ _ _ _ h2]
  rw [addChildren_nil]
  rfl

theorem abc_parse : makeChildFolder "k" abcFields = .ok abcResult := by
  rw [makeChildFolder_children "k" abcFields abcNode
    [JValue.obj cLinkAFields, JValue.obj cFolderBFields, JValue.obj cLinkCFields] (by rfl) (by rfl)]
  exact abc_addChildren

/-- The entry rendered for the folder built from the A, B, C children list:
the anchor of A stands before the anchor of C, and the whole definition
list stands before the subfolder list. -/
theorem abc_render :
    folderEntry abcResult =
      "<h4>F</h4><dl><dt><a href=\x22http://a/\x22>A</a></dt><dt><a href=\x22http://c/\x22>C</a></dt></dl><ul><li><h4>B</h4></li></ul>" := by
  show folderEntry (Folder.mk abcNode [abcLinkA, abcLinkC] [abcFolderB1]) = _
  rw [folderEntry_eq]
  simp only [List.map]
  rw [show abcFolderB1 = Folder.mk { Name := "B", Key := "#1", Added := decodeTimeStamp 0, Modified := 0 } [] [] from rfl]
  rw [folderEntry_eq]
  rfl

/-
Two interleavings of the same link and folder inside a children array.
-/

def lfFields : List (String × JValue) :=
  [("name", JValue.str "F"), ("date_added", JValue.str "0"),
   ("children", JValue.arr [JValue.obj cLinkAFields, JValue.obj cFolderBFields])]

def flFields : List (String × JValue) :=
  [("name", JValue.str "F"), ("date_added", JValue.str "0"),
   ("children", JValue.arr [JValue.obj cFolderBFields, JValue.obj cLinkAFields])]

def lfResult : Folder := Folder.mk abcNode [abcLinkA] [abcFolderB1]

def flLinkA : Link :=
  { node := { Name := "A", Key := "#1", Added := decodeTimeStamp 0, Modified := 0 }, URL := "http://a/" }

def flFolderB : Folder :=
  Folder.mk { Name := "B", Key := "#0", Added := decodeTimeStamp 0, Modified := 0 } [] []

def flResult : Folder := Folder.mk abcNode [flLinkA] [flFolderB]

theorem lf_parse : makeChildFolder "k" lfFields = .ok lfResult := by
  have h0 : Folder.add (Folder.mk abcNode [] []) ("#" ++ toString 0) (JValue.obj cLinkAFields)
      = .ok (Folder.mk abcNode [abcLinkA] []) := by
    rw [add_url_tag _ ("#" ++ toString 0) cLinkAFields (by rfl)]
    rfl
  have h1 : Folder.add (Folder.mk abcNode [abcLinkA] []) ("#" ++ toString (0 + 1)) (JValue.obj cFolderBFields)
      = .ok (Folder.mk abcNode [abcLinkA] [abcFolderB1]) := by
    rw [add_folder_tag _ ("#" ++ toString (0 + 1)) cFolderBFields (by rfl)]
    rw [makeChildFolder_no_children ("#" ++ toString (0 + 1)) cFolderBFields
      { Name := "B", Key := "#1", Added := decodeTimeStamp 0, Modified := 0 } (by rfl) (by rfl)]
    rfl
  rw [makeChildFolder_children "k" lfFields abcNode
    [JValue.obj cLinkAFields, JValue.obj cFolderBFields] (by rfl) (by rfl)]
  rw [addChildren_cons_ok _ _ _ _ _ _ h0]
  rw [addChildren_cons_ok _ _ _ _ _ _ h1]
  rw [addChildren_nil]
  rfl

theorem fl_parse : makeChildFolder "k" flFields = .ok flResult := by
  have h0 : Folder.add (Folder.mk abcNode [] []) ("#" ++ toString 0) (JValue.obj cFolderBFields)
      = .ok (Folder.mk abcNode [] [flFolderB]) := by
    rw [add_folder_tag _ ("#" ++ toString 0) cFolderBFields (by rfl)]
    rw [makeChildFolder_no_children ("#" ++ toString 0) cFolderBFields
      { Name := "B", Key := "#0", Added := decodeTimeStamp 0, Modified := 0 } (by rfl) (by rfl)]
    rfl
  have h1 : Folder.add (Folder.mk abcNode [] [flFolderB]) ("#" ++ toString (0 + 1)) (JValue.obj cLinkAFields)
      = .ok (Folder.mk abcNode [flLinkA] [flFolderB]) := by
    rw [add_url_tag _ ("#" ++ toString (0 + 1)) cLinkAFields (by rfl)]
    rfl
  rw [makeChildFolder_children "k" flFields abcNode
    [JValue.obj cFolderBFields, JValue.obj cLinkAFields] (by rfl) (by rfl)]
  rw [addChildren_cons_ok _ _ _ _ _ _ h0]
  rw [addChildren_cons_ok _ _ _ _ _ _ h1]
  rw [addChildren_nil]
  rfl

theorem lf_render :
    folderEntry lfResult =
      "<h4>F</h4><dl><dt><a href=\x22http://a/\x22>A</a></dt></dl><ul><li><h4>B</h4></li></ul>" := by
  show folderEntry (Folder.mk abcNode [abcLinkA] [abcFolderB1]) = _
  rw [folderEntry_eq]
  simp only [List.map]
  rw [show abcFolderB1 = Folder.mk { Name := "B", Key := "#1", Added := decodeTimeStamp 0, Modified := 0 } [] [] from rfl]
  rw [folderEntry_eq]
  rfl

theorem fl_render :
    folderEntry flResult =
      "<h4>F</h4><dl><dt><a href=\x22http://a/\x22>A</a></dt></dl><ul><li><h4>B</h4></li></ul>" := by
  show folderEntry (Folder.mk abcNode [flLinkA] [flFolderB]) = _
  rw [folderEntry_eq]
  simp only [List.map]
  rw [show flFolderB = Folder.mk { Name := "B", Key := "#0", Added := decodeTimeStamp 0, Modified := 0 } [] [] from rfl]
  rw [folderEntry_eq]
  rfl

theorem string_mk_data (s : String) : String.mk s.data = s := by
  cases s
  rfl

/-- Claim C2: for every non-negative 64-bit integer t, the timestamp decoder
returns exactly the instant 1601-01-01 00:00:00 UTC (googleEpoch) plus t
microseconds: the chunking loop computes the same instant as a direct exact
addition of 1000 t nanoseconds, with no 64-bit nanosecond overflow, including
for boundary values above the single-multiplication overflow threshold. -/
theorem claim_C2_timestamp (t : Int) (h0 : 0 ≤ t) (h1 : t ≤ 2 ^ 63 - 1) :
    decodeTimeStamp t = googleEpoch + 1000 * t :=
  decodeTimeStamp_eq t h0 (by omega)

theorem claim_C2_timestamp_witness :
    (0 : Int) ≤ 9223372036854775807 ∧ (9223372036854775807 : Int) ≤ 2 ^ 63 - 1 ∧
    decodeTimeStamp 9223372036854775807 = googleEpoch + 1000 * 9223372036854775807 :=
  ⟨by norm_num, by norm_num, claim_C2_timestamp 9223372036854775807 (by norm_num) (by norm_num)⟩

/-- Claim C3: every error raised while building a node at depth is a
path-qualified parser error: mapError prepends the key of the current node
(with a slash when a path is already present), every error leaving the
dispatcher carries its key as the first path component, and a children array
whose element at index 2 is not an object fails with the unexpected-node-type
error on a path ending in the synthetic key #2. -/
theorem claim_C3_paths :
    (∀ key path msg : String, path ≠ "" →
        mapError key (.parser path msg) = .parser (key ++ "/" ++ path) msg)
    ∧ (∀ (key : String) (e : BMError), pathHasKey key (mapError key e))
    ∧ (∀ (root : Folder) (key : String) (item : JValue) (e : BMError),
        Folder.add root key item = .error e → pathHasKey key e)
    ∧ makeChildFolder "folder_key" c3Fields =
        .error (.parser "folder_key/#2" "Unexpected node type") :=
  ⟨mapError_prependsKey, mapError_pathHasKey, add_error_pathHasKey, c3_concrete⟩

theorem claim_C3_paths_witness :
    mapError "a" (BMError.parser "b" "m") = BMError.parser ("a" ++ "/" ++ "b") "m"
    ∧ pathHasKey "k" (mapError "k" (BMError.keyNotFound "x"))
    ∧ pathHasKey "k" (BMError.parser "k" "Unexpected node type") :=
  ⟨claim_C3_paths.1 "a" "b" "m" (by decide),
   claim_C3_paths.2.1 "k" (BMError.keyNotFound "x"),
   claim_C3_paths.2.2.1 (Folder.mk { Name := "", Key := "", Added := 0, Modified := 0 } [] [])
     "k" (JValue.str "s") (BMError.parser "k" "Unexpected node type")
     (add_str (Folder.mk { Name := "", Key := "", Added := 0, Modified := 0 } [] []) "k" "s")⟩

/-- Claim C4: for a node mapping, an absent date_modified leaves the
modified time at the zero value with no error; a present but malformed
date_modified makes reading fail; and an absent date_added makes reading
fail with the key-not-found error for date_added, which makeLink qualifies
with the key of the node itself. -/
theorem claim_C4_modified :
    (∀ (key : String) (data : List (String × JValue)) (name : String) (added : Int),
        readString "name" data = .ok name →
        readTimeStamp "date_added" data = .ok added →
        jlookup "date_modified" data = none →
        Node.read key data = .ok { Name := name, Key := key, Added := added, Modified := 0 })
    ∧ (∀ (key : String) (data : List (String × JValue)) (v : JValue) (e : BMError),
        jlookup "date_modified" data = some v →
        readTimeStamp "date_modified" data = .error e →
        ∀ (name : String) (added : Int),
          readString "name" data = .ok name →
          readTimeStamp "date_added" data = .ok added →
          Node.read key data = .error e)
    ∧ (∀ (key : String) (data : List (String × JValue)) (name : String),
        readString "name" data = .ok name →
        jlookup "date_added" data = none →
        Node.read key data = .error (.keyNotFound "date_added")
        ∧ makeLink key data = .error (.parser key "Tag \x22date_added\x22 is not found")) := by
  refine ⟨?_, ?_, ?_⟩
  · intro key data name added h1 h2 h3
    exact nodeRead_modified_absent key data name added h1 h2 h3
  · intro key data v e hp he name added h1 h2
    exact nodeRead_modified_bad key data name added e h1 h2 he
      (readTimeStamp_error_present "date_modified" data v e hp he)
  · intro key data name h1 h3
    exact ⟨nodeRead_added_absent key data name h1 h3, makeLink_added_absent key data name h1 h3⟩

theorem claim_C4_modified_witness :
    Node.read "k" [("name", JValue.str "N"), ("date_added", JValue.str "0")] =
      .ok { Name := "N", Key := "k", Added := decodeTimeStamp 0, Modified := 0 }
    ∧ Node.read "k" [("name", JValue.str "N"), ("date_added", JValue.str "0"),
        ("date_modified", JValue.str "x")] =
      .error (.notAnInteger "date_modified" "x")
    ∧ Node.read "k" [("name", JValue.str "N")] = .error (.keyNotFound "date_added")
    ∧ makeLink "k" [("name", JValue.str "N")] =
      .error (.parser "k" "Tag \x22date_added\x22 is not found") :=
  ⟨claim_C4_modified.1 "k" _ "N" (decodeTimeStamp 0) (by rfl) (by rfl) (by rfl),
   claim_C4_modified.2.1 "k" _ (JValue.str "x") (.notAnInteger "date_modified" "x")
     (by rfl) (by rfl) "N" (decodeTimeStamp 0) (by rfl) (by rfl),
   (claim_C4_modified.2.2 "k" _ "N" (by rfl) (by rfl)).1,
   (claim_C4_modified.2.2 "k" _ "N" (by rfl) (by rfl)).2⟩

/-- Claim C5: escaping of user-controlled strings follows the standard HTML
entity rules: the escaped form of any string contains no raw left angle
bracket, right angle bracket, double quote or apostrophe, every ampersand of
the escaped form opens one of the five entities, decoding the entities
recovers the original string exactly, and htmlText and htmlLink emit exactly
the escaped forms of the user strings inside the literal anchor template. -/
theorem claim_C5_escaping :
    (∀ (s : String) (c : Char), c ∈ (escapeString s).data →
        c ≠ '<' ∧ c ≠ '>' ∧ c ≠ '"' ∧ c ≠ Char.ofNat 39)
    ∧ (∀ s : String, ampersandsEscaped (escapeString s).data = true)
    ∧ (∀ s : String, String.mk (unescapeList (escapeString s).data) = s)
    ∧ (∀ s : String, htmlText s = escapeString s)
    ∧ (∀ link text : String, htmlLink link text =
        "<a href=\x22" ++ escapeString link ++ "\x22>" ++ escapeString text ++ "</a>") := by
  refine ⟨?_, ?_, ?_, ?_, ?_⟩
  · intro s c hc
    exact escapeList_no_specials s.data c hc
  · intro s
    exact escapeList_amp_escaped s.data
  · intro s
    calc String.mk (unescapeList (escapeString s).data)
        = String.mk s.data := by rw [show (escapeString s).data = escapeList s.data from rfl,
            unescape_escapeList]
      _ = s := string_mk_data s
  · intro s
    rfl
  · intro link text
    rfl

theorem claim_C5_escaping_witness :
    (('x' : Char) ≠ '<' ∧ ('x' : Char) ≠ '>' ∧ ('x' : Char) ≠ '"' ∧ ('x' : Char) ≠ Char.ofNat 39)
    ∧ ampersandsEscaped (escapeString "a&b<c>").data = true
    ∧ String.mk (unescapeList (escapeString "a&b<c>").data) = "a&b<c>" :=
  ⟨claim_C5_escaping.1 "x" 'x' (by decide),
   claim_C5_escaping.2.1 "a&b<c>",
   claim_C5_escaping.2.2.1 "a&b<c>"⟩

/-- Claim C1 (corrected): the minimal untyped document of the
specification does not parse: the untyped bookmark_bar mapping is
dispatched as an unlabeled folder whose every named field is itself
dispatched as a child node, so its string field fails with an
unexpected-node-type error; after adding a folder type tag to bookmark_bar
the document parses, and the rendered HTML document contains the
Bookmarks Bar heading, a definition list with exactly one anchor entry for
the Example bookmark, and exactly one unordered list, namely the top-level
list that wraps the root folders (no subfolder list inside the folder
entry). -/
theorem claim_C1_end_to_end :
    buildTree "roots" minimalRootsVal =
      .error (.parser "roots/bookmark_bar/name" "Unexpected node type")
    ∧ buildTree "roots" typedRootsVal = .ok exRootFolder
    ∧ foldersToHTML exRootFolder.Folders = typedDocHTML
    ∧ countOcc "<h4>Bookmarks Bar</h4>".data typedDocHTML.data = 1
    ∧ countOcc "<dt><a href=\x22https://example.com\x22>Example</a></dt>".data typedDocHTML.data = 1
    ∧ countOcc "<dt>".data typedDocHTML.data = 1
    ∧ countOcc "<dl>".data typedDocHTML.data = 1
    ∧ countOcc "<ul>".data typedDocHTML.data = 1 :=
  ⟨minimal_parse_fails, typed_parse, typed_render,
   by decide, by decide, by decide, by decide, by decide⟩

/-- Claim C1, counterexample to the claim as stated: parsing the minimal
document does not succeed. -/
theorem claim_C1_end_to_end_counterexample :
    (buildTree "roots" minimalRootsVal).isOk = false := by
  rw [minimal_parse_fails]
  rfl

/-- Claim C6: within every folder the order of the built child links and
child folders follows the order of the source children array (each element
contributes its link or folder at its own position), and rendering emits
the entries in the stored order: for the children list link A, folder B,
link C, the built folder holds the links A then C and the rendered entry
shows the anchor of A before the anchor of C. -/
theorem claim_C6_order :
    (∀ (key : String) (cc : List JValue) (folder folder2 : Folder) (i : Nat),
        addChildren key folder i cc = .ok folder2 →
        folder2.Links = folder.Links ++ childLinks i cc ∧
        folder2.Folders = folder.Folders ++ childFolders i cc)
    ∧ makeChildFolder "k" abcFields = .ok abcResult
    ∧ abcResult.Links = [abcLinkA, abcLinkC]
    ∧ abcResult.Folders = [abcFolderB1]
    ∧ abcLinkA.node.Name = "A" ∧ abcLinkC.node.Name = "C"
    ∧ folderEntry abcResult =
        "<h4>F</h4><dl><dt><a href=\x22http://a/\x22>A</a></dt><dt><a href=\x22http://c/\x22>C</a></dt></dl><ul><li><h4>B</h4></li></ul>" :=
  ⟨fun key cc folder folder2 i h =>
    ⟨(addChildren_ok_shape key cc folder folder2 i h).2.1,
     (addChildren_ok_shape key cc folder folder2 i h).2.2⟩,
   abc_parse, rfl, rfl, rfl, rfl, abc_render⟩

theorem claim_C6_order_witness :
    abcResult.Links = (Folder.mk abcNode [] []).Links ++
      childLinks 0 [JValue.obj cLinkAFields, JValue.obj cFolderBFields, JValue.obj cLinkCFields]
    ∧ abcResult.Folders = (Folder.mk abcNode [] []).Folders ++
      childFolders 0 [JValue.obj cLinkAFields, JValue.obj cFolderBFields, JValue.obj cLinkCFields] :=
  claim_C6_order.1 "k"
    [JValue.obj cLinkAFields, JValue.obj cFolderBFields, JValue.obj cLinkCFields]
    (Folder.mk abcNode [] []) abcResult 0 abc_addChildren

/-- Claim C7: the entry rendered for a folder is, in order, the h4-wrapped
escaped folder name, then, only when the folder has at least one link, a
definition list with one dt anchor per link, then, only when the folder has
at least one subfolder, an unordered list with each subfolder wrapped in an
li and rendered recursively; a folder with neither links nor subfolders
emits only its name heading, and empty lists emit no dl or ul tags. -/
theorem claim_C7_structure :
    (∀ (n : Node) (ls : List Link) (fs : List Folder),
        folderEntry (Folder.mk n ls fs) =
          htmlTag "h4" (htmlText n.Name)
          ++ (match ls with
              | [] => ""
              | _ :: _ => htmlTag "dl" (htmlList (ls.map
                  (fun lnk => htmlTag "dt" (htmlLink lnk.URL lnk.node.Name)))))
          ++ (match fs with
              | [] => ""
              | _ :: _ => htmlTag "ul" (htmlList (fs.map
                  (fun f => htmlTag "li" (folderEntry f))))))
    ∧ (∀ n : Node, folderEntry (Folder.mk n [] []) = htmlTag "h4" (htmlText n.Name)) := by
  constructor
  · intro n ls fs
    exact folderEntry_eq n ls fs
  · intro n
    rw [folderEntry_eq]
    simp [htmlText, htmlRawText]

/-- Claim C8: the dispatcher rejects a value that is not a string-keyed
mapping with the unexpected-node-type error at its key, rejects a mapping
whose type tag is present but not a string, dispatches the folder tag to
makeChildFolder and the url tag to makeLink (appending the result through
addFolder and addLink), and rejects any other string tag with the
unknown-type error carrying the offending tag. -/
theorem claim_C8_dispatch :
    (∀ (root : Folder) (key : String) (item : JValue),
        (∀ fields, item ≠ JValue.obj fields) →
        Folder.add root key item = .error (.parser key "Unexpected node type"))
    ∧ (∀ (root : Folder) (key : String) (fields : List (String × JValue)) (t : JValue),
        jlookup "type" fields = some t → (∀ s, t ≠ JValue.str s) →
        Folder.add root key (JValue.obj fields) =
          .error (.parser key "Type tag is not a string"))
    ∧ (∀ (root : Folder) (key : String) (fields : List (String × JValue)),
        jlookup "type" fields = some (JValue.str "folder") →
        Folder.add root key (JValue.obj fields) = root.addFolder (makeChildFolder key fields))
    ∧ (∀ (root : Folder) (key : String) (fields : List (String × JValue)),
        jlookup "type" fields = some (JValue.str "url") →
        Folder.add root key (JValue.obj fields) = root.addLink (makeLink key fields))
    ∧ (∀ (root : Folder) (key : String) (fields : List (String × JValue)) (tt : String),
        jlookup "type" fields = some (JValue.str tt) → tt ≠ "folder" → tt ≠ "url" →
        Folder.add root key (JValue.obj fields) =
          .error (.parser key ("Unknown type \x22" ++ tt ++ "\x22"))) := by
  refine ⟨?_, add_tag_not_string, add_folder_tag, add_url_tag, add_unknown_tag⟩
  intro root key item h
  cases item with
  | str s => exact add_str root key s
  | num x => exact add_num root key x
  | bool b => exact add_bool root key b
  | null => exact add_null root key
  | arr items => exact add_arr root key items
  | obj fields => exact absurd rfl (h fields)

theorem claim_C8_dispatch_witness :
    Folder.add (Folder.mk abcNode [] []) "k" (JValue.str "s") =
      .error (.parser "k" "Unexpected node type")
    ∧ Folder.add (Folder.mk abcNode [] []) "k" (JValue.obj [("type", JValue.num 3)]) =
      .error (.parser "k" "Type tag is not a string")
    ∧ Folder.add (Folder.mk abcNode [] []) "k" (JValue.obj cFolderBFields) =
      (Folder.mk abcNode [] []).addFolder (makeChildFolder "k" cFolderBFields)
    ∧ Folder.add (Folder.mk abcNode [] []) "k" (JValue.obj cLinkAFields) =
      (Folder.mk abcNode [] []).addLink (makeLink "k" cLinkAFields)
    ∧ Folder.add (Folder.mk abcNode [] []) "k" (JValue.obj [("type", JValue.str "weird")]) =
      .error (.parser "k" ("Unknown type \x22" ++ "weird" ++ "\x22")) :=
  ⟨claim_C8_dispatch.1 (Folder.mk abcNode [] []) "k" (JValue.str "s") (by intro fields; simp),
   claim_C8_dispatch.2.1 (Folder.mk abcNode [] []) "k" _ (JValue.num 3) (by rfl) (by intro s; simp),
   claim_C8_dispatch.2.2.1 (Folder.mk abcNode [] []) "k" cFolderBFields (by rfl),
   claim_C8_dispatch.2.2.2.1 (Folder.mk abcNode [] []) "k" cLinkAFields (by rfl),
   claim_C8_dispatch.2.2.2.2 (Folder.mk abcNode [] []) "k" [("type", JValue.str "weird")] "weird"
     (by rfl) (by decide) (by decide)⟩

/-- Claim C9: readString fails with the key-not-found error when the key is
absent and with the wrong-type error when the value is not a string, and
returns the string otherwise; readInt reads the field as a string, parses it
as a base-10 integer of the given bit width, fails with the not-an-integer
error carrying the offending string on parse failure, and propagates the
readString error unchanged otherwise. -/
theorem claim_C9_readers :
    (∀ (key : String) (data : List (String × JValue)),
        jlookup key data = none → readString key data = .error (.keyNotFound key))
    ∧ (∀ (key : String) (data : List (String × JValue)) (v : JValue),
        jlookup key data = some v → (∀ s, v ≠ JValue.str s) →
        readString key data = .error (.notAString key))
    ∧ (∀ (key : String) (data : List (String × JValue)) (s : String),
        jlookup key data = some (JValue.str s) → readString key data = .ok s)
    ∧ (∀ (key : String) (data : List (String × JValue)) (bitSize : Nat) (e : BMError),
        readString key data = .error e → readInt key data bitSize = .error e)
    ∧ (∀ (key : String) (data : List (String × JValue)) (bitSize : Nat) (s : String),
        readString key data = .ok s → goParseInt s bitSize = none →
        readInt key data bitSize = .error (.notAnInteger key s))
    ∧ (∀ (key : String) (data : List (String × JValue)) (bitSize : Nat) (s : String) (v : Int),
        readString key data = .ok s → goParseInt s bitSize = some v →
        readInt key data bitSize = .ok v) :=
  ⟨readString_absent, readString_wrong_type, readString_str,
   readInt_propagates, readInt_not_integer,
   fun key data bitSize s v h hp => readInt_ok key data bitSize s v h hp⟩

theorem claim_C9_readers_witness :
    readString "k" [] = .error (.keyNotFound "k")
    ∧ readString "k" [("k", JValue.num 3)] = .error (.notAString "k")
    ∧ readString "k" [("k", JValue.str "v")] = .ok "v"
    ∧ readInt "k" [] 64 = .error (.keyNotFound "k")
    ∧ readInt "k" [("k", JValue.str "zz")] 64 = .error (.notAnInteger "k" "zz")
    ∧ readInt "k" [("k", JValue.str "-17")] 64 = .ok (-17) :=
  ⟨claim_C9_readers.1 "k" [] (by rfl),
   claim_C9_readers.2.1 "k" [("k", JValue.num 3)] (JValue.num 3) (by rfl) (by intro s; simp),
   claim_C9_readers.2.2.1 "k" [("k", JValue.str "v")] "v" (by rfl),
   claim_C9_readers.2.2.2.1 "k" [] 64 (.keyNotFound "k") (by rfl),
   claim_C9_readers.2.2.2.2.1 "k" [("k", JValue.str "zz")] 64 "zz" (by rfl) (by rfl),
   claim_C9_readers.2.2.2.2.2 "k" [("k", JValue.str "-17")] 64 "-17" (-17) (by rfl) (by decide)⟩

theorem folderEntry_parts (folder : Folder) :
    folderEntry folder = folderName folder ++ folderLinks folder ++ folderList folder.Folders := by
  rw [folderEntry.eq_def]
  simp [htmlListArgs, htmlList, String.append_assoc]

/-- Claim C10 (corrected): rendering a folder emits the whole definition
list of its links before its subfolder list, whatever the interleaving of
links and folders in the source children array was, and the builder keeps
links and subfolders in two separate lists, so the interleaving is not
recoverable from the rendered output: the two interleavings of one link and
one folder render to the same entry.  The interleaving does remain
recoverable from the tree itself, because every node keeps its synthetic
position key (here #0 against #1). -/
theorem claim_C10_links_first :
    (∀ folder : Folder,
        folderEntry folder = folderName folder ++ folderLinks folder ++ folderList folder.Folders)
    ∧ makeChildFolder "k" lfFields = .ok lfResult
    ∧ makeChildFolder "k" flFields = .ok flResult
    ∧ folderEntry lfResult = folderEntry flResult
    ∧ lfResult.Links.map (fun l => l.node.Key) = ["#0"]
    ∧ flResult.Links.map (fun l => l.node.Key) = ["#1"] :=
  ⟨folderEntry_parts, lf_parse, fl_parse, lf_render.trans fl_render.symm, by decide, by decide⟩

/-- Claim C10, counterexample to the claim as stated: the trees built from
the two interleavings of the same link and folder are different (their
synthetic keys record the source positions), so the interleaving is
recoverable from the tree. -/
theorem claim_C10_links_first_counterexample :
    makeChildFolder "k" lfFields ≠ makeChildFolder "k" flFields := by
  rw [lf_parse, fl_parse]
  intro h
  have h2 := congrArg (fun r : Except BMError Folder => match r with
    | Except.ok f => f.Links.map (fun l : Link => l.node.Key)
    | Except.error _ => ([] : List String)) h
  exact absurd h2 (by decide)
